import Mathlib

/-! Verification of the prismo task lifecycle engine

Shallow embedding of `src/server/app/task_manager.py`,
`src/server/app/execution_strategy.py` and the `Task` data model of
`src/server/app/models.py`.

The embedding models:
* the `TaskStatus` enum and the `Task` pydantic model (`models.py`);
* the strategy tag carried by a task (`Task.execution_strategy`) and the
  dispatch of `TaskManager._execute` lines 51-58, which evaluates
  `ExecutionStrategy.nerfacto` (etc.) on the class imported from
  `models.py`.  That class is the abstract `ExecutionStrategy(ABC,
  BaseModel)` of models.py lines 15-53, which has no attribute named
  `nerfacto`, `instant_ngp` or `vanilla_nerf`, so the very first lookup
  raises `AttributeError`.  The lookup sits outside the `try:` of line 61:
  the exception escapes the iteration and terminates the worker coroutine
  before any status write.  The embedding models Python class attribute
  lookup explicitly so this error path is preserved;
* the three strategy classes of `execution_strategy.py`
  (`NerfactoStrategy`, `InstantNgpStrategy`, `VanillaNerfStrategy`), their
  per-stage timeouts and their per-stage external-process command lines;
* `ExecutionStrategy.exec_program`: spawns an external process, waits for it,
  raises `RuntimeError` with a formatted message on a non-zero exit code.
  The `asyncio.wait_for` timeout wrapper in `TaskManager._execute` cancels
  the wait when the process runs past the stage deadline; the code contains
  no `kill`/`terminate` call, so a timed-out process keeps running.  The
  embedding tracks the set of still-running external processes in a `World`
  state to make that observable;
* `TaskManager.__init__`/`add`/`get`/`list`: an insertion-ordered dict from
  task id to `Task` (Python 3.7 dict semantics: overwrite keeps the original
  position) plus an `asyncio.Queue` of `maxsize` 10, where `put_nowait`
  raises `QueueFull` exactly when the queue already holds 10 items;
* `TaskManager._execute`: the single worker loop.  Per dequeued task the
  iteration first performs the strategy dispatch (which, per the above,
  raises on every task); the `try:` pipeline below it — three stages each
  under `asyncio.wait_for`, with the timeout and broad exception handlers —
  is embedded as written even though the dispatch makes it unreachable, so
  that reachability is a theorem about the model rather than an assumption
  baked into it.  External behaviour (how long each spawned process runs
  and with which exit code, and whether a `.yml` config file is found
  before rendering) is supplied by an environment value `TaskEnv`.  An
  exception escaping an iteration is recorded in the outcome's `escaped`
  field; the worker loop stops there (`while True` has no handler), so
  later queued tasks are never dequeued.

Wall-clock durations are abstracted to natural numbers of seconds; the
timeout constants (`60 * 20`, ...) are taken verbatim from the source.
Filesystem paths depend on the process environment (`~`, `getcwd()`), so the
constants of `config.py` are a `Config` parameter.
-/

namespace Prismo

/-- The `TaskStatus` enum of `models.py`. -/
inductive TaskStatus where
  | QUEUED
  | PREPROCESSING
  | TRAINING
  | RENDERING
  | DONE
  | FAILED
deriving DecidableEq, Repr

/-- The strategy tag stored on a task (`Task.execution_strategy`).
`TaskManager._execute` compares it against the three named variants
`nerfacto`, `instant_ngp`, `vanilla_nerf`; any other value reaches the
`else` branch of the dispatch, which `other` represents. -/
inductive ExecutionStrategy where
  | nerfacto
  | instant_ngp
  | vanilla_nerf
  | other (s : String)
deriving DecidableEq, Repr

/-- The `Task` model of `models.py` (the fields; the path helpers are separate
functions taking a `Config`).  `created_at` abstracts the timestamp. -/
structure Task where
  id : String
  created_at : Nat
  status : TaskStatus
  error : Option String
  execution_strategy : ExecutionStrategy
deriving DecidableEq, Repr

/-- Environment-dependent constants of `config.py` (`tasks_dir` expands `~`,
`colmap_script` uses `getcwd()`). -/
structure Config where
  tasks_dir : String
  colmap_script : String
deriving DecidableEq, Repr

/-- Constructor `Task.new` of `models.py`: fresh tasks start QUEUED with no error.  The
uuid and the current time are inputs from the environment. -/
def Task.new (id : String) (created_at : Nat)
    (execution_strategy : ExecutionStrategy) : Task :=
  { id := id
    created_at := created_at
    status := TaskStatus.QUEUED
    error := none
    execution_strategy := execution_strategy }

/-- Path helper `Task.task_dir`: `path.join(tasks_dir, str(self.id))`. -/
def Task.task_dir (cfg : Config) (t : Task) : String :=
  cfg.tasks_dir ++ "/" ++ t.id

/-- Path helper `Task.dataset_dir`. -/
def Task.dataset_dir (cfg : Config) (t : Task) : String :=
  t.task_dir cfg ++ "/dataset"

/-- Path helper `Task.images_dir`. -/
def Task.images_dir (cfg : Config) (t : Task) : String :=
  t.dataset_dir cfg ++ "/images"

/-- Path helper `Task.model_dir`. -/
def Task.model_dir (cfg : Config) (t : Task) : String :=
  t.task_dir cfg ++ "/model"

/-- Path helper `Task.log_file`. -/
def Task.log_file (cfg : Config) (t : Task) : String :=
  t.task_dir cfg ++ "/log.txt"

/-- Path helper `Task.output_video_file`. -/
def Task.output_video_file (cfg : Config) (t : Task) : String :=
  t.task_dir cfg ++ "/output/render_output.mp4"

/-! Task registry and admission queue (`TaskManager.__init__`, `add`,
`get`, `list`) -/

/-- Insertion-ordered dict update, Python 3.7 semantics: assigning to an
existing key overwrites the value in place, a new key is appended. -/
def insertTask : List (String × Task) → String → Task → List (String × Task)
  | [], k, v => [(k, v)]
  | (k0, v0) :: rest, k, v =>
      if k0 = k then (k, v) :: rest else (k0, v0) :: insertTask rest k v

/-- Dict lookup. -/
def lookupTask : List (String × Task) → String → Option Task
  | [], _ => none
  | (k0, v0) :: rest, k => if k0 = k then some v0 else lookupTask rest k

/-- The mutable state of a `TaskManager`: the `tasks` dict and the bounded
`asyncio.Queue` (FIFO list, head = next to be dequeued). -/
structure TaskManager where
  tasks : List (String × Task)
  queue : List Task
deriving DecidableEq, Repr

/-- The `asyncio.Queue(maxsize=10)` bound from `TaskManager.__init__`. -/
def queueMaxsize : Nat := 10

/-- Fresh manager (`TaskManager.__init__`). -/
def TaskManager.init : TaskManager := { tasks := [], queue := [] }

/-- Operation `TaskManager.add`: store the task in the dict under its id, then
`put_nowait` it; `QueueFull` (queue already at `maxsize`) is caught and
reported as `false`. -/
def TaskManager.add (m : TaskManager) (task : Task) : TaskManager × Bool :=
  let tasks1 := insertTask m.tasks task.id task
  if m.queue.length < queueMaxsize then
    ({ tasks := tasks1, queue := m.queue ++ [task] }, true)
  else
    ({ m with tasks := tasks1 }, false)

/-- Operation `TaskManager.get`: dict lookup, `none` when absent. -/
def TaskManager.get (m : TaskManager) (task_id : String) : Option Task :=
  lookupTask m.tasks task_id

/-- Operation `TaskManager.list`: all stored tasks. -/
def TaskManager.listTasks (m : TaskManager) : List Task :=
  m.tasks.map Prod.snd

/-- A sequence of `add` calls; returns the final state and the returned
booleans in call order. -/
def runAdds (m : TaskManager) : List Task → TaskManager × List Bool
  | [] => (m, [])
  | t :: ts =>
      let (m1, b) := m.add t
      let (m2, bs) := runAdds m1 ts
      (m2, b :: bs)

/-- The tasks of a call sequence whose `add` returned `true`, in call
order. -/
def successfulAdds (m : TaskManager) : List Task → List Task
  | [] => []
  | t :: ts =>
      let (m1, b) := m.add t
      if b then t :: successfulAdds m1 ts else successfulAdds m1 ts

/-! Execution strategies (`execution_strategy.py`) and the dispatch of
`TaskManager._execute` lines 51-58.

The dispatch compares `task.execution_strategy` against
`ExecutionStrategy.nerfacto` / `.instant_ngp` / `.vanilla_nerf`, where
`ExecutionStrategy` is the name imported from `models.py` (task_manager.py
line 8) — the abstract `class ExecutionStrategy(ABC, BaseModel)` of
models.py lines 15-53.  Python evaluates the attribute before any
comparison, and the class has no such attribute, so the first arm raises
`AttributeError` on every dequeued task. -/

/-- The three concrete strategy classes of `execution_strategy.py`. -/
inductive StrategyClass where
  | NerfactoStrategy
  | InstantNgpStrategy
  | VanillaNerfStrategy
deriving DecidableEq, Repr

/-- The attribute names defined on `models.ExecutionStrategy` (models.py
lines 15-53): the three abstract timeout properties and the three abstract
stage methods.  No attribute named `nerfacto`, `instant_ngp` or
`vanilla_nerf` is defined anywhere on it (nor added elsewhere in `src/`);
the ABC/pydantic machinery contributes no attribute with those names
either. -/
def modelsExecutionStrategyAttrs : List String :=
  ["preprocess_timeout", "train_timeout", "render_timeout",
   "preprocess", "train", "render"]

/-- The message of the `AttributeError` raised by looking up a missing
attribute on the class. -/
def attributeErrorMsg (name : String) : String :=
  "AttributeError: type object ExecutionStrategy has no attribute " ++ name

/-- Python class attribute lookup: the attribute (represented here by its
name) when the class has it, `AttributeError` otherwise. -/
def classAttrLookup (attrs : List String) (name : String) :
    Except String String :=
  if name ∈ attrs then Except.ok name
  else Except.error (attributeErrorMsg name)

/-- The name a strategy tag value would compare equal to. -/
def tagName : ExecutionStrategy → String
  | ExecutionStrategy.nerfacto => "nerfacto"
  | ExecutionStrategy.instant_ngp => "instant_ngp"
  | ExecutionStrategy.vanilla_nerf => "vanilla_nerf"
  | ExecutionStrategy.other s => s

/-- Strategy dispatch of `TaskManager._execute` (lines 51-58).  Each arm
first looks the variant name up on the imported `models.ExecutionStrategy`
class; the lookup raising `AttributeError` aborts the dispatch (and, in the
source, the whole iteration — the dispatch precedes the `try:`).  The
success branches — the comparisons and the `else` fallback to
`NerfactoStrategy` — are written out as in the source, although the first
lookup failing makes them unreachable. -/
def selectStrategy (tag : ExecutionStrategy) : Except String StrategyClass :=
  match classAttrLookup modelsExecutionStrategyAttrs "nerfacto" with
  | Except.error e => Except.error e
  | Except.ok a1 =>
      if tagName tag = a1 then Except.ok StrategyClass.NerfactoStrategy
      else
        match classAttrLookup modelsExecutionStrategyAttrs "instant_ngp" with
        | Except.error e => Except.error e
        | Except.ok a2 =>
            if tagName tag = a2 then Except.ok StrategyClass.InstantNgpStrategy
            else
              match classAttrLookup modelsExecutionStrategyAttrs
                  "vanilla_nerf" with
              | Except.error e => Except.error e
              | Except.ok a3 =>
                  if tagName tag = a3 then
                    Except.ok StrategyClass.VanillaNerfStrategy
                  else Except.ok StrategyClass.NerfactoStrategy

/-- Timeout `preprocess_timeout` in seconds (identical in all three classes). -/
def preprocess_timeout : StrategyClass → Nat
  | StrategyClass.NerfactoStrategy => 60 * 20
  | StrategyClass.InstantNgpStrategy => 60 * 20
  | StrategyClass.VanillaNerfStrategy => 60 * 20

/-- Timeout `train_timeout` in seconds. -/
def train_timeout : StrategyClass → Nat
  | StrategyClass.NerfactoStrategy => 60 * 25
  | StrategyClass.InstantNgpStrategy => 60 * 10
  | StrategyClass.VanillaNerfStrategy => 60 * 45

/-- Timeout `render_timeout` in seconds (identical in all three classes). -/
def render_timeout : StrategyClass → Nat
  | StrategyClass.NerfactoStrategy => 60 * 5
  | StrategyClass.InstantNgpStrategy => 60 * 5
  | StrategyClass.VanillaNerfStrategy => 60 * 5

/-- The model name passed to `ns-train` — the only difference between the
three `train` methods. -/
def trainModelArg : StrategyClass → String
  | StrategyClass.NerfactoStrategy => "nerfacto"
  | StrategyClass.InstantNgpStrategy => "instant-ngp"
  | StrategyClass.VanillaNerfStrategy => "vanilla-nerf"

/-- Argument list of the shared `preprocess` method (the f-string split on
whitespace). -/
def preprocessArgs (cfg : Config) : List String :=
  [cfg.colmap_script, "--run_colmap", "--colmap_matcher", "exhaustive",
   "--aabb_scale", "16"]

/-- Argument list of `train`. -/
def trainArgs (cfg : Config) (strat : StrategyClass) (t : Task) : List String :=
  [trainModelArg strat, "--data", t.dataset_dir cfg,
   "--output-dir", t.model_dir cfg]

/-- Argument list of `render`, given the `.yml` config file found under the
model directory. -/
def renderArgs (cfg : Config) (t : Task) (configFile : String) : List String :=
  ["--load-config", configFile, "--traj", "spiral",
   "--output-path", t.output_video_file cfg]

/-! External processes and `exec_program` -/

/-- An external process spawned by `asyncio.create_subprocess_exec`. -/
structure Proc where
  program : String
  args : List String
deriving DecidableEq, Repr

/-- World state: the external processes that have been spawned and are still
running.  `exec_program` contains no `kill`/`terminate` call, so the only
way a process leaves this list is by exiting on its own. -/
structure World where
  running : List Proc
deriving DecidableEq, Repr

/-- Environment-chosen behaviour of one external process: how long it runs
(`none` = never finishes) and its exit code when it finishes. -/
structure ProcBeh where
  runtime : Option Nat
  exitStatus : Int
deriving DecidableEq, Repr

/-- Outcome of one stage as seen by `TaskManager._execute`: the awaited
coroutine returned, raised `RuntimeError`, or `asyncio.wait_for` raised
`asyncio.TimeoutError`. -/
inductive ExecResult where
  | ok
  | runtimeError (msg : String)
  | timedOut
deriving DecidableEq, Repr

/-- The `RuntimeError` message of `exec_program` on a non-zero exit code:
`Program "<program and args joined by spaces>" exit with status code <n>`. -/
def errMsg (program : String) (args : List String) (status : Int) : String :=
  "Program \"" ++ String.intercalate " " (program :: args) ++
    "\" exit with status code " ++ toString status

/-- Method `ExecutionStrategy.exec_program` run under the `asyncio.wait_for`
deadline that `TaskManager._execute` wraps around each stage.  The process
is spawned; if it exits within the deadline it has left the running set and
a non-zero code raises `RuntimeError`; past the deadline `wait_for` cancels
the `await proc.wait()` only — the code never kills the child, so the
process stays in the running set. -/
def exec_program (w : World) (program : String) (args : List String)
    (beh : ProcBeh) (timeout : Nat) : World × ExecResult :=
  match beh.runtime with
  | some t =>
      if t ≤ timeout then
        (w, if beh.exitStatus = 0 then ExecResult.ok
            else ExecResult.runtimeError (errMsg program args beh.exitStatus))
      else ({ running := w.running ++ [⟨program, args⟩] }, ExecResult.timedOut)
  | none => ({ running := w.running ++ [⟨program, args⟩] }, ExecResult.timedOut)

/-! The worker loop (`TaskManager._execute`) -/

/-- Environment for one dequeued task: behaviour of the process each stage
spawns, and whether the `os.walk` before rendering finds a `.yml` config
file (and which path). -/
structure TaskEnv where
  pre : ProcBeh
  train : ProcBeh
  renderConfigFile : Option String
  render : ProcBeh
deriving DecidableEq, Repr

/-- One in-place mutation of the dequeued `Task` performed by the worker. -/
inductive WriteEvent where
  | setStatus (s : TaskStatus)
  | setError (e : Option String)
deriving DecidableEq, Repr

/-- The stage-name suffix appended by the `asyncio.TimeoutError` handler,
chosen from the task's status at the moment the timeout is observed; no
branch matches any other status and the `+=` is skipped. -/
def timeoutSuffix : TaskStatus → Option String
  | TaskStatus.PREPROCESSING => some "preprocessing"
  | TaskStatus.TRAINING => some "training"
  | TaskStatus.RENDERING => some "rendering"
  | _ => none

/-- The `except asyncio.TimeoutError` handler: `error` is first assigned
`"Timeout on "`, then extended with the stage name, then `status` is set to
FAILED.  No `await` occurs inside the handler. -/
def timeoutHandler (t : Task) : Task × List WriteEvent :=
  match timeoutSuffix t.status with
  | some suf =>
      ({ t with error := some ("Timeout on " ++ suf),
                status := TaskStatus.FAILED },
       [WriteEvent.setError (some "Timeout on "),
        WriteEvent.setError (some ("Timeout on " ++ suf)),
        WriteEvent.setStatus TaskStatus.FAILED])
  | none =>
      ({ t with error := some "Timeout on ", status := TaskStatus.FAILED },
       [WriteEvent.setError (some "Timeout on "),
        WriteEvent.setStatus TaskStatus.FAILED])

/-- The `except Exception` handler: `error := str(e)`, then `status :=
FAILED`.  No `await` occurs inside the handler. -/
def excHandler (t : Task) (msg : String) : Task × List WriteEvent :=
  ({ t with error := some msg, status := TaskStatus.FAILED },
   [WriteEvent.setError (some msg), WriteEvent.setStatus TaskStatus.FAILED])

/-- Result of one iteration of the worker loop on one dequeued task. -/
structure ExecOutcome where
  /-- running external processes after the iteration -/
  world : World
  /-- the task after the iteration (mutated in place by the source) -/
  final : Task
  /-- the in-place mutations, in program order -/
  writes : List WriteEvent
  /-- task snapshots a concurrent reader can observe: the initial state
  (while queued / at `queue.get`), the state during each stage `await`
  that is reached, and the state after the iteration.  The exception
  handlers contain no `await`, so their intermediate states are not
  observable under asyncio's cooperative scheduling. -/
  observed : List Task
  /-- an exception raised in the iteration outside the `try:` block; it is
  caught by nothing and terminates the worker coroutine. -/
  escaped : Option String
deriving DecidableEq, Repr

/-- One iteration of `TaskManager._execute` on a dequeued task.  The
iteration begins with the strategy dispatch (lines 51-58), which sits
outside the `try:`: when it raises, nothing has been written to the task,
no process has been spawned, and the exception escapes the iteration
(`escaped`).  When it returns a strategy class, the `try:` pipeline runs:
three stages each under `asyncio.wait_for` with the strategy's stage
timeout, with the two exception handlers.  The `world` field collects the
external processes this iteration spawned and left running;
`processQueue` accumulates them across iterations. -/
def executeTask (cfg : Config) (task : Task) (env : TaskEnv) :
    ExecOutcome :=
  match selectStrategy task.execution_strategy with
  | Except.error e =>
      { world := { running := [] }, final := task, writes := [],
        observed := [task], escaped := some e }
  | Except.ok strat =>
      let t1 := { task with status := TaskStatus.PREPROCESSING }
      let e1 := exec_program { running := [] } "python3.8" (preprocessArgs cfg)
          env.pre (preprocess_timeout strat)
      match e1.2 with
      | ExecResult.timedOut =>
          let h := timeoutHandler t1
          { world := e1.1, final := h.1,
            writes := WriteEvent.setStatus TaskStatus.PREPROCESSING :: h.2,
            observed := [task, t1, h.1], escaped := none }
      | ExecResult.runtimeError m =>
          let h := excHandler t1 m
          { world := e1.1, final := h.1,
            writes := WriteEvent.setStatus TaskStatus.PREPROCESSING :: h.2,
            observed := [task, t1, h.1], escaped := none }
      | ExecResult.ok =>
          let t2 := { t1 with status := TaskStatus.TRAINING }
          let e2 := exec_program e1.1 "ns-train" (trainArgs cfg strat task)
              env.train (train_timeout strat)
          match e2.2 with
          | ExecResult.timedOut =>
              let h := timeoutHandler t2
              { world := e2.1, final := h.1,
                writes := [WriteEvent.setStatus TaskStatus.PREPROCESSING,
                           WriteEvent.setStatus TaskStatus.TRAINING] ++ h.2,
                observed := [task, t1, t2, h.1], escaped := none }
          | ExecResult.runtimeError m =>
              let h := excHandler t2 m
              { world := e2.1, final := h.1,
                writes := [WriteEvent.setStatus TaskStatus.PREPROCESSING,
                           WriteEvent.setStatus TaskStatus.TRAINING] ++ h.2,
                observed := [task, t1, t2, h.1], escaped := none }
          | ExecResult.ok =>
              let t3 := { t2 with status := TaskStatus.RENDERING }
              match env.renderConfigFile with
              | none =>
                  let h := excHandler t3
                      "Cannot find config.yml file for ns-render"
                  { world := e2.1, final := h.1,
                    writes := [WriteEvent.setStatus TaskStatus.PREPROCESSING,
                               WriteEvent.setStatus TaskStatus.TRAINING,
                               WriteEvent.setStatus TaskStatus.RENDERING] ++
                      h.2,
                    observed := [task, t1, t2, t3, h.1], escaped := none }
              | some configFile =>
                  let e3 := exec_program e2.1 "ns-render"
                      (renderArgs cfg task configFile) env.render
                      (render_timeout strat)
                  match e3.2 with
                  | ExecResult.timedOut =>
                      let h := timeoutHandler t3
                      { world := e3.1, final := h.1,
                        writes :=
                          [WriteEvent.setStatus TaskStatus.PREPROCESSING,
                           WriteEvent.setStatus TaskStatus.TRAINING,
                           WriteEvent.setStatus TaskStatus.RENDERING] ++ h.2,
                        observed := [task, t1, t2, t3, h.1], escaped := none }
                  | ExecResult.runtimeError m =>
                      let h := excHandler t3 m
                      { world := e3.1, final := h.1,
                        writes :=
                          [WriteEvent.setStatus TaskStatus.PREPROCESSING,
                           WriteEvent.setStatus TaskStatus.TRAINING,
                           WriteEvent.setStatus TaskStatus.RENDERING] ++ h.2,
                        observed := [task, t1, t2, t3, h.1], escaped := none }
                  | ExecResult.ok =>
                      let t4 := { t3 with status := TaskStatus.DONE }
                      { world := e3.1, final := t4,
                        writes :=
                          [WriteEvent.setStatus TaskStatus.PREPROCESSING,
                           WriteEvent.setStatus TaskStatus.TRAINING,
                           WriteEvent.setStatus TaskStatus.RENDERING,
                           WriteEvent.setStatus TaskStatus.DONE],
                        observed := [task, t1, t2, t3, t4], escaped := none }

/-- The worker loop (`while True`) consuming a finite prefix of the queue.
One task is dequeued per iteration; the running external processes
accumulate across iterations (nothing ever kills a process left behind).
The `while True` body has no exception handler of its own, so an exception
escaping an iteration (the dispatch `AttributeError`) terminates the
worker coroutine: the remaining queued tasks are never dequeued and the
loop returns only the outcomes up to and including the fatal one. -/
def processQueue (cfg : Config) (w : World) :
    List (Task × TaskEnv) → World × List ExecOutcome
  | [] => (w, [])
  | (t, e) :: rest =>
      let o := executeTask cfg t e
      match o.escaped with
      | some _ => ({ running := w.running ++ o.world.running }, [o])
      | none =>
          let r := processQueue cfg
              { running := w.running ++ o.world.running } rest
          (r.1, o :: r.2)

/-! Derived observations used by the theorems -/

/-- The statuses written by an iteration, in order. -/
def statusWrites (l : List WriteEvent) : List TaskStatus :=
  l.filterMap fun e =>
    match e with
    | WriteEvent.setStatus s => some s
    | WriteEvent.setError _ => none

/-- The status sequence a task takes through an iteration: its status on
dequeue followed by every status written. -/
def statusTrace (task : Task) (l : List WriteEvent) : List TaskStatus :=
  task.status :: statusWrites l

/-- The behaviour completes within the deadline with exit code 0. -/
def completesOk (b : ProcBeh) (timeout : Nat) : Bool :=
  match b.runtime with
  | some t => decide (t ≤ timeout) && decide (b.exitStatus = 0)
  | none => false

/-- The behaviour runs past the deadline (`asyncio.wait_for` fires). -/
def exceedsTimeout (b : ProcBeh) (timeout : Nat) : Bool :=
  match b.runtime with
  | some t => decide (timeout < t)
  | none => true

/-- The behaviour completes within the deadline with a non-zero exit code. -/
def failsNonZero (b : ProcBeh) (timeout : Nat) : Bool :=
  match b.runtime with
  | some t => decide (t ≤ timeout) && decide (b.exitStatus ≠ 0)
  | none => false

/-- The three pipeline stages. -/
inductive Stage where
  | preprocess
  | train
  | render
deriving DecidableEq, Repr

/-- The environment makes stage `k` exceed its deadline, all earlier stages
completing successfully. -/
def timesOutAt (env : TaskEnv) (strat : StrategyClass) : Stage → Bool
  | Stage.preprocess => exceedsTimeout env.pre (preprocess_timeout strat)
  | Stage.train =>
      completesOk env.pre (preprocess_timeout strat) &&
        exceedsTimeout env.train (train_timeout strat)
  | Stage.render =>
      completesOk env.pre (preprocess_timeout strat) &&
        completesOk env.train (train_timeout strat) &&
        env.renderConfigFile.isSome &&
        exceedsTimeout env.render (render_timeout strat)

/-- The environment makes stage `k`'s process exit non-zero within its
deadline, all earlier stages completing successfully. -/
def failsNonZeroAt (env : TaskEnv) (strat : StrategyClass) : Stage → Bool
  | Stage.preprocess => failsNonZero env.pre (preprocess_timeout strat)
  | Stage.train =>
      completesOk env.pre (preprocess_timeout strat) &&
        failsNonZero env.train (train_timeout strat)
  | Stage.render =>
      completesOk env.pre (preprocess_timeout strat) &&
        completesOk env.train (train_timeout strat) &&
        env.renderConfigFile.isSome &&
        failsNonZero env.render (render_timeout strat)

/-- The environment makes all three stages succeed: every process completes
within its deadline with exit code 0 and the render config file is found. -/
def allStagesOk (env : TaskEnv) (strat : StrategyClass) : Bool :=
  completesOk env.pre (preprocess_timeout strat) &&
  completesOk env.train (train_timeout strat) &&
  env.renderConfigFile.isSome &&
  completesOk env.render (render_timeout strat)

/-- Scan of a write trace tracking whether the most recent error write was
non-null; demands a non-null error already written at every FAILED status
write. -/
def errorSetBeforeFailedAux : Bool → List WriteEvent → Bool
  | _, [] => true
  | _, WriteEvent.setError (some _) :: rest => errorSetBeforeFailedAux true rest
  | _, WriteEvent.setError none :: rest => errorSetBeforeFailedAux false rest
  | errSet, WriteEvent.setStatus TaskStatus.FAILED :: rest =>
      errSet && errorSetBeforeFailedAux errSet rest
  | errSet, WriteEvent.setStatus _ :: rest => errorSetBeforeFailedAux errSet rest

/-- Every FAILED status write in the trace is preceded by a write of a
non-null error. -/
def errorSetBeforeFailed (l : List WriteEvent) : Bool :=
  errorSetBeforeFailedAux false l

/-! Concrete inputs used by the witness theorems. -/

/-- A concrete configuration. -/
def witnessConfig : Config :=
  { tasks_dir := "/root/tasks", colmap_script := "/srv/scripts/colmap2nerf.py" }

/-- A concrete fresh task. -/
def witnessTask : Task := Task.new "task-0" 0 ExecutionStrategy.nerfacto

/-- A process that completes quickly with exit code 0. -/
def okBeh : ProcBeh := { runtime := some 1, exitStatus := 0 }

/-- A process that never finishes. -/
def hangBeh : ProcBeh := { runtime := none, exitStatus := 0 }

/-- An environment in which every stage succeeds. -/
def envAllOk : TaskEnv :=
  { pre := okBeh, train := okBeh, renderConfigFile := some "config.yml",
    render := okBeh }

/-- An environment in which the preprocess stage never completes. -/
def envPreHangs : TaskEnv := { envAllOk with pre := hangBeh }

/-- An environment in which the train stage exits with code 2. -/
def envTrainFails : TaskEnv :=
  { envAllOk with train := { runtime := some 3, exitStatus := 2 } }

/-- A manager whose queue already holds `queueMaxsize` unstarted tasks. -/
def fullManager : TaskManager :=
  { tasks := [], queue := List.replicate queueMaxsize witnessTask }

/-- A concrete task registered and queued (for the duplicate-id scenario). -/
def dupTask1 : Task := Task.new "dup" 0 ExecutionStrategy.nerfacto

/-- A different task reusing the id of `dupTask1`. -/
def dupTask2 : Task := Task.new "dup" 5 ExecutionStrategy.instant_ngp

/-- A manager already holding `dupTask1` in both registry and queue. -/
def dupManager : TaskManager :=
  { tasks := [("dup", dupTask1)], queue := [dupTask1] }

/-- A concrete task carrying an unknown strategy tag. -/
def otherTask : Task := Task.new "task-x" 0 (ExecutionStrategy.other "gaussian")

/-- A second concrete task, added after `witnessTask`. -/
def secondTask : Task := Task.new "task-1" 1 ExecutionStrategy.nerfacto

/-! Helper lemmas shared by the claim theorems. -/

/-- The dispatch raises on every strategy tag: its first arm looks up
`nerfacto` on `models.ExecutionStrategy`, which has no such attribute, so
`AttributeError` is raised before any comparison — whatever the tag. -/
theorem selectStrategy_raises (tag : ExecutionStrategy) :
    selectStrategy tag = Except.error (attributeErrorMsg "nerfacto") := rfl

/-- Consequently every iteration of the worker loop dies at the dispatch:
no status or error write, no process spawned, the task unchanged, and the
`AttributeError` escaping the iteration. -/
theorem executeTask_crash (cfg : Config) (task : Task) (env : TaskEnv) :
    executeTask cfg task env =
      { world := { running := [] }, final := task, writes := [],
        observed := [task],
        escaped := some (attributeErrorMsg "nerfacto") } := rfl

/-- Lookup after a dict insert at the same key returns the inserted value. -/
theorem lookupTask_insertTask (l : List (String × Task)) (k : String) (v : Task) :
    lookupTask (insertTask l k v) k = some v := by
  induction l with
  | nil => simp [insertTask, lookupTask]
  | cons p rest ih =>
      obtain ⟨k0, v0⟩ := p
      by_cases h : k0 = k <;> simp [insertTask, lookupTask, h, ih]

/-- Lookup at a different key is unaffected by a dict insert. -/
theorem lookupTask_insertTask_ne (l : List (String × Task)) (k k1 : String)
    (v : Task) (h : k1 ≠ k) :
    lookupTask (insertTask l k v) k1 = lookupTask l k1 := by
  induction l with
  | nil => simp [insertTask, lookupTask, Ne.symm h]
  | cons p rest ih =>
      obtain ⟨k0, v0⟩ := p
      by_cases h0 : k0 = k
      · subst h0
        simp [insertTask, lookupTask, h, Ne.symm h]
      · simp [insertTask, lookupTask, h0, ih]

/-- An inserted value is among the dict's values. -/
theorem mem_map_snd_insertTask (l : List (String × Task)) (k : String) (v : Task) :
    v ∈ (insertTask l k v).map Prod.snd := by
  induction l with
  | nil => simp [insertTask]
  | cons p rest ih =>
      obtain ⟨k0, v0⟩ := p
      by_cases h : k0 = k
      · simp [insertTask, h]
      · simp only [insertTask, if_neg h, List.map_cons, List.mem_cons]
        exact Or.inr ih

/-- A sequence of `add` calls appends exactly the accepted tasks to the
queue, in call order. -/
theorem runAdds_queue (m : TaskManager) (ts : List Task) :
    (runAdds m ts).1.queue = m.queue ++ successfulAdds m ts := by
  induction ts generalizing m with
  | nil => simp [runAdds, successfulAdds]
  | cons t rest ih =>
      simp only [runAdds, successfulAdds]
      by_cases h : m.queue.length < queueMaxsize
      · simp [TaskManager.add, h, ih]
      · simp [TaskManager.add, h, ih]

/-! Claim theorems and their witnesses. -/

/-- C1 (code bug): the claim describes the intended status sequence
QUEUED, PREPROCESSING, TRAINING, RENDERING, DONE for a task whose three
stages would all succeed.  The code never produces it: evaluated at a
concrete dequeued task in an environment where every stage process would
finish quickly with exit code 0 (`allStagesOk`), the iteration dies at the
dispatch `AttributeError` before the `try:` — the status trace is just
QUEUED, the write trace is empty, the task is returned unchanged, and the
exception escapes the worker. -/
theorem dispatch_crash_prevents_status_sequence :
    allStagesOk envAllOk StrategyClass.NerfactoStrategy = true ∧
    statusTrace witnessTask
      (executeTask witnessConfig witnessTask envAllOk).writes =
      [TaskStatus.QUEUED] ∧
    (executeTask witnessConfig witnessTask envAllOk).writes = [] ∧
    (executeTask witnessConfig witnessTask envAllOk).final = witnessTask ∧
    (executeTask witnessConfig witnessTask envAllOk).escaped =
      some (attributeErrorMsg "nerfacto") :=
  ⟨rfl, rfl, rfl, rfl, rfl⟩

/-- C2 (code bug): the claim says a stage exceeding its timeout ends the
task FAILED with a stage-naming error.  Evaluated at a concrete task whose
preprocess would never complete (`timesOutAt ... preprocess`), the code
never starts the stage: the worker dies at the dispatch `AttributeError`,
so no timeout can expire — the task stays QUEUED with a null error. -/
theorem dispatch_crash_prevents_timeout_error :
    timesOutAt envPreHangs StrategyClass.NerfactoStrategy Stage.preprocess =
      true ∧
    (executeTask witnessConfig witnessTask envPreHangs).final.status =
      TaskStatus.QUEUED ∧
    (executeTask witnessConfig witnessTask envPreHangs).final.error = none ∧
    (executeTask witnessConfig witnessTask envPreHangs).escaped =
      some (attributeErrorMsg "nerfacto") :=
  ⟨rfl, rfl, rfl, rfl⟩

/-- C3 (code bug): the claim (and the spec, which calls it mandatory)
requires forced termination of a timed-out stage's process before the
failure is recorded.  The code never reaches any such point: at a concrete
task whose preprocess would run forever, the worker dies at the dispatch
`AttributeError` before spawning anything — no process runs, no timeout is
ever enforced, no failure is recorded (status stays QUEUED).  Independently
of the crash, `exec_program` (execution_strategy.py lines 48-66) contains
no kill/terminate call at all, so even the intended timeout path would
only abandon the wait. -/
theorem no_timeout_kill_ever_performed :
    timesOutAt envPreHangs StrategyClass.NerfactoStrategy Stage.preprocess =
      true ∧
    (executeTask witnessConfig witnessTask envPreHangs).world.running = [] ∧
    (executeTask witnessConfig witnessTask envPreHangs).final.status =
      TaskStatus.QUEUED ∧
    (executeTask witnessConfig witnessTask envPreHangs).escaped =
      some (attributeErrorMsg "nerfacto") :=
  ⟨rfl, rfl, rfl, rfl⟩

/-- C4: `add` on a manager whose queue already holds the capacity bound of
unstarted tasks returns `false`, yet the task is stored: `get` returns it
(still QUEUED), it appears in `list`, and the queue is unchanged — so it
will never be dequeued for execution. -/
theorem add_when_queue_full (m : TaskManager) (task : Task)
    (hfull : m.queue.length = queueMaxsize)
    (hstatus : task.status = TaskStatus.QUEUED) :
    (m.add task).2 = false ∧
    (m.add task).1.get task.id = some task ∧
    task.status = TaskStatus.QUEUED ∧
    task ∈ (m.add task).1.listTasks ∧
    (m.add task).1.queue = m.queue := by
  have hnot : ¬ (m.queue.length < queueMaxsize) := by omega
  refine ⟨?_, ?_, hstatus, ?_, ?_⟩
  · simp [TaskManager.add, hnot]
  · simp [TaskManager.add, hnot, TaskManager.get, lookupTask_insertTask]
  · simp only [TaskManager.add, if_neg hnot, TaskManager.listTasks]
    exact mem_map_snd_insertTask m.tasks task.id task
  · simp [TaskManager.add, hnot]

/-- Witness for C4 on a manager with a full queue. -/
theorem add_when_queue_full_witness :
    fullManager.queue.length = queueMaxsize ∧
    (fullManager.add witnessTask).2 = false ∧
    (fullManager.add witnessTask).1.get witnessTask.id = some witnessTask ∧
    witnessTask ∈ (fullManager.add witnessTask).1.listTasks ∧
    (fullManager.add witnessTask).1.queue = fullManager.queue := by
  have h := add_when_queue_full fullManager witnessTask rfl rfl
  exact ⟨rfl, h.1, h.2.1, h.2.2.2.1, h.2.2.2.2⟩

/-- C5: for a fresh task (QUEUED, no error), every observable snapshot
satisfies: `error` is non-null exactly when `status` is FAILED, and in the
write trace every FAILED status write is preceded by a non-null error
write.  On the code this holds degenerately: the worker dies at the
dispatch before any write, so the only observable snapshot is the
unchanged QUEUED task with a null error, and the write trace is empty —
no reader can ever see FAILED at all, let alone FAILED with a null
error. -/
theorem error_iff_failed (cfg : Config) (task : Task) (env : TaskEnv)
    (hq : task.status = TaskStatus.QUEUED)
    (he : task.error = none) :
    (∀ t ∈ (executeTask cfg task env).observed,
        (t.error ≠ none ↔ t.status = TaskStatus.FAILED)) ∧
    errorSetBeforeFailed (executeTask cfg task env).writes = true := by
  rw [executeTask_crash]
  refine ⟨?_, rfl⟩
  intro t ht
  simp only [List.mem_singleton] at ht
  subst ht
  simp [he, hq]

/-- Witness for C5 at a concrete fresh task. -/
theorem error_iff_failed_witness :
    errorSetBeforeFailed
      (executeTask witnessConfig witnessTask envPreHangs).writes = true :=
  (error_iff_failed witnessConfig witnessTask envPreHangs rfl rfl).2

/-- C6 (code bug): the claim says a stage process exiting non-zero ends
the task FAILED with a message naming the tool and exit code.  Evaluated
at a concrete task whose train process would exit with code 2 within its
deadline (`failsNonZeroAt ... train`), no process is ever spawned: the
worker dies at the dispatch `AttributeError` and the task stays QUEUED
with a null error — no tool-failure message is ever recorded. -/
theorem dispatch_crash_prevents_tool_error :
    failsNonZeroAt envTrainFails StrategyClass.NerfactoStrategy Stage.train =
      true ∧
    (executeTask witnessConfig witnessTask envTrainFails).final.error =
      none ∧
    (executeTask witnessConfig witnessTask envTrainFails).final.status =
      TaskStatus.QUEUED ∧
    (executeTask witnessConfig witnessTask envTrainFails).world.running =
      [] ∧
    (executeTask witnessConfig witnessTask envTrainFails).escaped =
      some (attributeErrorMsg "nerfacto") :=
  ⟨rfl, rfl, rfl, rfl, rfl⟩

/-- C7 (code bug): the claim says tasks are dequeued strictly in `add`
order and each is fully processed before the next is dequeued.  Admission
is FIFO (two successful `add` calls leave the queue `[task-0, task-1]`),
but the worker dies on the first dequeued task's dispatch
`AttributeError`: the loop returns after that single fatal iteration and
the second queued task is never dequeued or executed at all. -/
theorem worker_dies_before_later_tasks :
    (runAdds TaskManager.init [witnessTask, secondTask]).1.queue =
      [witnessTask, secondTask] ∧
    (runAdds TaskManager.init [witnessTask, secondTask]).2 = [true, true] ∧
    (processQueue witnessConfig { running := [] }
        [(witnessTask, envAllOk), (secondTask, envAllOk)]).2 =
      [{ world := { running := [] }, final := witnessTask, writes := [],
         observed := [witnessTask],
         escaped := some (attributeErrorMsg "nerfacto") }] :=
  ⟨rfl, rfl, rfl⟩

/-- C8 (code bug): the claim says every fault of a task's iteration is
caught inside it, recorded on the task, never re-thrown, and the worker
proceeds to the next queued task.  The dispatch `AttributeError` is a
fault raised inside the iteration but before the `try:`: it is recorded
nowhere (no write, error still null), escapes the loop body, and the
worker terminates — with a second task queued, only one outcome is
produced and the second task is never processed. -/
theorem fault_escapes_worker_loop :
    (executeTask witnessConfig witnessTask envAllOk).escaped =
      some (attributeErrorMsg "nerfacto") ∧
    (executeTask witnessConfig witnessTask envAllOk).writes = [] ∧
    (executeTask witnessConfig witnessTask envAllOk).final.error = none ∧
    (processQueue witnessConfig { running := [] }
        [(witnessTask, envAllOk), (secondTask, envAllOk)]).2.length = 1 :=
  ⟨rfl, rfl, rfl, rfl⟩

/-- C9 counterexample: the claim says a task with an unknown strategy tag
is silently executed with the `NerfactoStrategy` pipeline.  At the
concrete task `task-x` with tag `other "gaussian"`, in an environment
where the Nerfacto pipeline would succeed end to end, nothing is executed:
no write, no process spawned, the task unchanged (still QUEUED, not DONE),
and the dispatch `AttributeError` escaping — refuting the fallback
execution. -/
theorem unknown_strategy_not_executed_cex :
    otherTask.execution_strategy = ExecutionStrategy.other "gaussian" ∧
    allStagesOk envAllOk StrategyClass.NerfactoStrategy = true ∧
    (executeTask witnessConfig otherTask envAllOk).writes = [] ∧
    (executeTask witnessConfig otherTask envAllOk).world.running = [] ∧
    (executeTask witnessConfig otherTask envAllOk).final = otherTask ∧
    (executeTask witnessConfig otherTask envAllOk).escaped =
      some (attributeErrorMsg "nerfacto") :=
  ⟨rfl, rfl, rfl, rfl, rfl, rfl⟩

/-- C9 amended: a dequeued task whose strategy tag matches none of the
three known variants is neither rejected nor marked failed — but not via
a `NerfactoStrategy` fallback: the dispatch's first attribute lookup
raises `AttributeError` (so the `else` branch is unreachable), the
exception escapes the iteration and kills the worker, and the task is
returned unchanged (still QUEUED), never executed. -/
theorem unknown_strategy_dispatch_raises (cfg : Config) (task : Task)
    (env : TaskEnv) (s : String)
    (_h : task.execution_strategy = ExecutionStrategy.other s) :
    selectStrategy task.execution_strategy =
      Except.error (attributeErrorMsg "nerfacto") ∧
    executeTask cfg task env =
      { world := { running := [] }, final := task, writes := [],
        observed := [task],
        escaped := some (attributeErrorMsg "nerfacto") } :=
  ⟨selectStrategy_raises task.execution_strategy,
    executeTask_crash cfg task env⟩

/-- Witness for the amended C9 at the concrete unknown-tag task. -/
theorem unknown_strategy_dispatch_raises_witness :
    selectStrategy otherTask.execution_strategy =
      Except.error (attributeErrorMsg "nerfacto") ∧
    executeTask witnessConfig otherTask envAllOk =
      { world := { running := [] }, final := otherTask, writes := [],
        observed := [otherTask],
        escaped := some (attributeErrorMsg "nerfacto") } :=
  unknown_strategy_dispatch_raises witnessConfig otherTask envAllOk
    "gaussian" rfl

/-- C10: `add` with a task reusing an id already in the registry performs
no uniqueness check: it overwrites the registry entry (a subsequent `get`
returns only the new task) and still enqueues, so the id occupies two
queue slots while the earlier task object stays scheduled but is no longer
reachable through `get` (when the registry held it only under that id). -/
theorem add_duplicate_id (m : TaskManager) (t1 t2 : Task)
    (_hlook : lookupTask m.tasks t2.id = some t1)
    (hid : t1.id = t2.id)
    (hmem : t1 ∈ m.queue)
    (hroom : m.queue.length < queueMaxsize) :
    (m.add t2).2 = true ∧
    (m.add t2).1.get t2.id = some t2 ∧
    (m.add t2).1.queue = m.queue ++ [t2] ∧
    t1 ∈ (m.add t2).1.queue ∧
    2 ≤ ((m.add t2).1.queue.countP (fun t => decide (t.id = t2.id))) ∧
    (t1 ≠ t2 → (∀ k, lookupTask m.tasks k = some t1 → k = t2.id) →
      ∀ k, (m.add t2).1.get k ≠ some t1) := by
  refine ⟨?_, ?_, ?_, ?_, ?_, ?_⟩
  · simp [TaskManager.add, hroom]
  · simp [TaskManager.add, hroom, TaskManager.get, lookupTask_insertTask]
  · simp [TaskManager.add, hroom]
  · simp only [TaskManager.add, if_neg, if_pos hroom]
    exact List.mem_append_left _ hmem
  · simp only [TaskManager.add, if_pos hroom]
    have h1 : 0 < m.queue.countP (fun t => decide (t.id = t2.id)) := by
      rw [List.countP_pos_iff]
      exact ⟨t1, hmem, by simp [hid]⟩
    rw [List.countP_append]
    simp only [List.countP_cons, List.countP_nil, decide_eq_true_eq,
      decide_True, if_true]
    omega
  · intro hne huniq k
    simp only [TaskManager.add, if_pos hroom, TaskManager.get]
    by_cases hk : k = t2.id
    · subst hk
      rw [lookupTask_insertTask]
      simp
      exact fun h => hne h.symm
    · rw [lookupTask_insertTask_ne _ _ _ _ hk]
      intro hcon
      exact hk (huniq k hcon)

/-- Witness for C10 on a concrete duplicate-id `add`. -/
theorem add_duplicate_id_witness :
    (dupManager.add dupTask2).2 = true ∧
    (dupManager.add dupTask2).1.get dupTask2.id = some dupTask2 ∧
    dupTask1 ∈ (dupManager.add dupTask2).1.queue ∧
    2 ≤ ((dupManager.add dupTask2).1.queue.countP
      (fun t => decide (t.id = dupTask2.id))) := by
  have h := add_duplicate_id dupManager dupTask1 dupTask2 rfl rfl
    (by simp [dupManager]) (by decide)
  exact ⟨h.1, h.2.1, h.2.2.2.1, h.2.2.2.2.1⟩

end Prismo
